import Mathlib

/-!
Shallow embedding of the icingcake dashboard's request-handling core
(`src/main.rs`, `src/config.rs`) and proofs about it.

Modelling conventions:
* Rust `String` values are Lean `String`s.  Rust compares strings byte-wise
  on their UTF-8 encoding; for valid UTF-8 this coincides with lexicographic
  comparison of the decoded codepoint sequences, which is exactly Lean's
  `String` order (`String.lt` = lexicographic `List.lt` on `Char.val`).
* Rust machine integers (`u8`, `u64`, `u16`) are Lean `Nat`s with the
  overflow/range conditions made explicit where the code checks them
  (`u64 → u8` conversion checks `≤ 255`).
* `serde_json::Value` is the inductive `Json` below.  `serde_json` stores a
  JSON number as `u64` when it is a non-negative integer, as `i64` when a
  negative integer, and as `f64` otherwise; only the first variant answers
  `as_u64`.  The embedded code never reads a float's value, so the float
  constructor carries no payload.
* Fallible steps (strict UTF-8 decoding, `char::from_u32` followed by
  `unwrap`) return `Option`; `none` models the failure/panic.
* External collaborators (the `url` crate's `Url::join`, the JSON parser,
  the network) are inputs to the embedded functions, never stubbed results.
-/

namespace Icingcake

/-- The row type rendered into the HTML table; embeds `struct RowPart`
(`main.rs` lines 46-52): `host`, `service`, `output` strings and a `u8`
state.  The `u8` range constraint is tracked in theorems, not in the type. -/
structure RowPart where
  host : String
  service : String
  output : String
  state : Nat
deriving DecidableEq, Repr

/-- Embeds `RowPart::partial_cmp` (`main.rs` lines 53-63):
`other.state.cmp(&self.state)` (state reversed!) chained with
`then_with` on `host`, `service`, `output`.  Rust's `Ord` on `String`
is byte-wise comparison of the UTF-8 encoding, which for valid UTF-8
agrees with Lean's `compare` on `String` (lexicographic by codepoint). -/
def rowCmp (a b : RowPart) : Ordering :=
  (((compare b.state a.state).then (compare a.host b.host)).then
    (compare a.service b.service)).then (compare a.output b.output)

/-- The non-strict order induced by `rowCmp`; `rowCmp a b ≠ .gt` is the
sortedness relation realised by `Vec::sort_unstable` on `RowPart`. -/
def rowLE (a b : RowPart) : Prop := rowCmp a b ≠ .gt

instance : DecidableRel rowLE := fun a b =>
  inferInstanceAs (Decidable (rowCmp a b ≠ .gt))

/-- The comparison the spec describes: `A` precedes `B` iff
`A.state > B.state`, or equal state and `A.host < B.host`
(lexicographically), or equal state and host and `A.service < B.service`,
or equal state, host, service and `A.output < B.output`.  String order is
spelled out as lexicographic order on the codepoint sequence (`.data`),
which for valid UTF-8 is the same as Rust's byte-wise string order. -/
def specPrecedes (a b : RowPart) : Prop :=
  b.state < a.state
    ∨ (a.state = b.state ∧ a.host.data < b.host.data)
    ∨ (a.state = b.state ∧ a.host = b.host ∧ a.service.data < b.service.data)
    ∨ (a.state = b.state ∧ a.host = b.host ∧ a.service = b.service
        ∧ a.output.data < b.output.data)

instance : DecidableRel specPrecedes := fun a b => by
  unfold specPrecedes; infer_instance

/-- `rows.sort_unstable()` (`main.rs` line 282) sorts by the `Ord`
instance, i.e. by `rowCmp`.  Because `rowCmp a b = .eq` forces `a = b`
(all four fields are compared), every sorting algorithm returns the same
list, so the unstable sort is modelled by insertion sort. -/
def sortRows (rows : List RowPart) : List RowPart :=
  List.insertionSort rowLE rows

section RowCmpLemmas

open Batteries

theorem compare_nat_swap (a b : Nat) : (compare a b).swap = compare b a :=
  @OrientedCmp.symm Nat compare _ a b

theorem compare_string_swap (a b : String) : (compare a b).swap = compare b a :=
  @OrientedCmp.symm String compare _ a b

theorem rowCmp_swap (a b : RowPart) : (rowCmp a b).swap = rowCmp b a := by
  simp only [rowCmp, Ordering.swap_then, compare_nat_swap, compare_string_swap]

theorem rowCmp_eq_iff {a b : RowPart} : rowCmp a b = .eq ↔ a = b := by
  simp only [rowCmp, Ordering.then_eq_eq, compare_eq_iff_eq]
  constructor
  · rintro ⟨⟨⟨h1, h2⟩, h3⟩, h4⟩
    cases a; cases b; simp_all
  · rintro rfl
    exact ⟨⟨⟨rfl, rfl⟩, rfl⟩, rfl⟩

theorem compare_string_lt_iff_data {a b : String} :
    compare a b = .lt ↔ a.data < b.data :=
  compare_lt_iff_lt.trans String.lt_iff_toList_lt

theorem compare_nat_lt_iff {a b : Nat} : compare a b = .lt ↔ a < b :=
  compare_lt_iff_lt

/-- The code's comparator realises exactly the order described in the
spec (state descending, then host, service, output ascending). -/
theorem rowCmp_lt_iff {a b : RowPart} : rowCmp a b = .lt ↔ specPrecedes a b := by
  simp only [rowCmp, Ordering.then_eq_lt, Ordering.then_eq_eq, specPrecedes,
    compare_string_lt_iff_data, compare_nat_lt_iff, compare_eq_iff_eq]
  constructor
  · rintro (((h | ⟨h1, h2⟩) | ⟨⟨h1, h2⟩, h3⟩) | ⟨⟨⟨h1, h2⟩, h3⟩, h4⟩)
    · exact .inl h
    · exact .inr (.inl ⟨h1.symm, h2⟩)
    · exact .inr (.inr (.inl ⟨h1.symm, h2, h3⟩))
    · exact .inr (.inr (.inr ⟨h1.symm, h2, h3, h4⟩))
  · rintro (h | ⟨h1, h2⟩ | ⟨h1, h2, h3⟩ | ⟨h1, h2, h3, h4⟩)
    · exact .inl (.inl (.inl h))
    · exact .inl (.inl (.inr ⟨h1.symm, h2⟩))
    · exact .inl (.inr ⟨⟨h1.symm, h2⟩, h3⟩)
    · exact .inr ⟨⟨⟨h1.symm, h2⟩, h3⟩, h4⟩

instance : Batteries.TransCmp rowCmp where
  symm a b := rowCmp_swap a b
  le_trans {a b c} hab hbc := by
    have t1 : TransCmp (fun (x y : RowPart) => compare y.state x.state) :=
      { symm := fun x y => @OrientedCmp.symm Nat compare _ y.state x.state
        le_trans := fun h1 h2 => @TransCmp.le_trans Nat compare _ _ _ _ h2 h1 }
    have t2 : TransCmp (compareOn (fun r : RowPart => r.host)) := inferInstance
    have t3 : TransCmp (compareOn (fun r : RowPart => r.service)) := inferInstance
    have t4 : TransCmp (compareOn (fun r : RowPart => r.output)) := inferInstance
    have t : TransCmp (compareLex (compareLex (compareLex
        (fun (x y : RowPart) => compare y.state x.state)
        (compareOn (fun r : RowPart => r.host)))
        (compareOn (fun r : RowPart => r.service)))
        (compareOn (fun r : RowPart => r.output))) := inferInstance
    exact t.le_trans (x := a) (y := b) (z := c) hab hbc

instance : IsTrans RowPart rowLE where
  trans a b c h₁ h₂ := @Batteries.TransCmp.le_trans RowPart rowCmp _ a b c h₁ h₂

instance : IsTotal RowPart rowLE where
  total a b := by
    rcases h : rowCmp a b with _ | _ | _
    · exact .inl (by simp [rowLE, h])
    · exact .inl (by simp [rowLE, h])
    · refine .inr ?_
      have h2 : rowCmp b a = .lt := by rw [← rowCmp_swap, h]; rfl
      simp [rowLE, h2]

instance : IsAntisymm RowPart rowLE where
  antisymm a b hab hba := by
    rcases h : rowCmp a b with _ | _ | _
    · have h2 : rowCmp b a = .gt := by rw [← rowCmp_swap, h]; rfl
      exact absurd h2 hba
    · exact rowCmp_eq_iff.1 h
    · exact absurd h hab

end RowCmpLemmas

/-! ### JSON values (`serde_json::Value`) -/

/-- Embeds `serde_json::Value`.  `serde_json` stores a JSON number as a
`u64` when it is a non-negative integer (`numU`, with `n < 2^64` for any
value produced by parsing), as an `i64` when a negative integer (`numI`),
and as an `f64` otherwise (`numF`).  None of the embedded code paths read
a float's value (`as_u64`, `as_str` and `as_array` all reject it), so the
float constructor carries no payload. -/
inductive Json where
  | null
  | bool (b : Bool)
  | numU (n : Nat)
  | numI (n : Int)
  | numF
  | str (s : String)
  | arr (elems : List Json)
  | obj (fields : List (String × Json))

/-- Embeds `serde_json::Value`'s `Index<&str>` (`value["key"]`): on an
object, the value stored under the key (a parsed `serde_json` map has
unique keys, so the first match is the match), otherwise — including on a
missing key — `Value::Null`. -/
def Json.index (j : Json) (key : String) : Json :=
  match j with
  | .obj fields => (fields.lookup key).getD .null
  | _ => .null

/-- Embeds `Value::as_str`: `Some` exactly on JSON strings. -/
def Json.asStr : Json → Option String
  | .str s => some s
  | _ => none

/-- Embeds `Value::as_u64`: `Some` exactly on numbers stored as `u64`,
i.e. non-negative integers. -/
def Json.asU64 : Json → Option Nat
  | .numU n => some n
  | _ => none

/-- Embeds `Value::as_array`: `Some` exactly on JSON arrays. -/
def Json.asArray : Json → Option (List Json)
  | .arr elems => some elems
  | _ => none

/-! ### Building a `RowPart` from one upstream `results` element -/

/-- Embeds `u64 → u8` conversion with default:
`.try_into().unwrap_or(6)` (`main.rs` line 273).  `TryInto<u8>` succeeds
exactly on values up to `u8::MAX = 255`; larger values fall back to 6. -/
def stateToU8 (n : Nat) : Nat :=
  if n ≤ 255 then n else 6

/-- Embeds the loop body of `handle_table` (`main.rs` lines 261-280)
building one `RowPart` from one element of the `results` array:
* `host`: `attrs.host_name` for `objtype == "services"`, else `attrs.name`
  (each defaulting to `""` when absent or not a string);
* `service`: `attrs.name` for services, else `""`;
* `output`: `attrs.last_check_result.output`, defaulting to `""`;
* `state`: `attrs.state` via `as_u64().unwrap_or(5).try_into().unwrap_or(6)`. -/
def extractRow (objtype : String) (result : Json) : RowPart :=
  let host := if objtype = "services"
    then (((result.index "attrs").index "host_name").asStr).getD ""
    else (((result.index "attrs").index "name").asStr).getD ""
  let service := if objtype = "services"
    then (((result.index "attrs").index "name").asStr).getD ""
    else ""
  let output := ((((result.index "attrs").index "last_check_result").index
    "output").asStr).getD ""
  let state := stateToU8 ((((result.index "attrs").index "state").asU64).getD 5)
  ⟨host, service, output, state⟩

/-! ### Responses -/

/-- An HTTP response produced by the dashboard: status code, `Content-Type`
header value and body. -/
structure DashResponse where
  status : Nat
  contentType : String
  body : String
deriving DecidableEq, Repr

/-- Embeds `return_500` (`main.rs` lines 81-89). -/
def return500 : DashResponse :=
  ⟨500, "text/plain; charset=utf-8", "500 Internal Server Error"⟩

/-- Modelled from the spec: the askama template `templates/table.html` is
not under `src/` (only `TableTemplate { rows }` and its render call are),
so the success view is modelled after §4.4/§4.2: an HTML table whose rows
appear in exactly the order of the `rows` list. -/
def renderTableRow (r : RowPart) : String :=
  "<tr><td>" ++ r.host ++ "</td><td>" ++ r.service ++ "</td><td>"
    ++ r.output ++ "</td><td>" ++ toString r.state ++ "</td></tr>"

/-- Modelled from the spec: renders the success table view; the rendered
document lists the rows in list order. -/
def renderTable (rows : List RowPart) : String :=
  "<table>" ++ String.join (rows.map renderTableRow) ++ "</table>"

/-- Embeds the 200-upstream-status branch of `handle_table`
(`main.rs` lines 244-301), starting from the parsed response JSON:
extract `$.results` via `as_array` (anything that is not an array —
including the `Null` read off a missing field — yields `return_500`),
build one `RowPart` per element, `sort_unstable`, render with status 200. -/
def handleSuccessJson (objtype : String) (responseJson : Json) : DashResponse :=
  match (responseJson.index "results").asArray with
  | none => return500
  | some results =>
      ⟨200, "text/html; charset=utf-8",
        renderTable (sortRows (results.map (extractRow objtype)))⟩

/-! ### Query-parameter validation (`main.rs` lines 147-199) -/

/-- Embeds `get_required_parameter` (`main.rs` lines 161-171): filter the
query pairs by key, keep the values, take the **last** one
(`Iterator::last`); `none` when the key never occurs. -/
def getRequiredParameter (queryPairs : List (String × String)) (key : String) :
    Option String :=
  ((queryPairs.filter (fun p => p.1 = key)).map (fun p => p.2)).getLast?

/-- Embeds Rust's `Debug` formatting of one character of a `&str`
(`char::escape_debug` with double quotes escaped, single quotes not):
`\0`, `\t`, `\r`, `\n`, `\\`, `\"` specials; other non-printable ASCII
(below `0x20`, and `0x7f`) become `\u`-escapes with minimal lowercase hex
digits; printable characters stand for themselves.  Whether a non-ASCII
character is printable/grapheme-extended comes from Unicode tables in
Rust's core library (an external collaborator); the embedding treats all
non-ASCII characters as printable, which is exact on ASCII. -/
def escapeDebugChar (c : Char) : String :=
  if c = Char.ofNat 0 then "\\0"
  else if c = '\t' then "\\t"
  else if c = '\r' then "\\r"
  else if c = '\n' then "\\n"
  else if c = '\\' then "\\\\"
  else if c = Char.ofNat 34 then "\\\""
  else if c.toNat < 0x20 ∨ c.toNat = 0x7f then
    "\\u\x7b" ++ String.mk (Nat.toDigits 16 c.toNat) ++ "\x7d"
  else String.singleton c

/-- Embeds `format!("{:?}", s)` for a string `s`: the escaped characters
wrapped in double quotes. -/
def rustDebugStr (s : String) : String :=
  "\"" ++ String.join (s.data.map escapeDebugChar) ++ "\""

/-- Embeds `handle_plaintext_response` (`main.rs` lines 91-100); building
such a response never fails for the fixed header used here, so the
`or_else(return_500)` branch is dead. -/
def plaintextResponse (status : Nat) (body : String) : DashResponse :=
  ⟨status, "text/plain; charset=utf-8", body⟩

/-- Embeds `handle_400_missing_parameter` (`main.rs` lines 147-152). -/
def missingParamResponse (name : String) : DashResponse :=
  plaintextResponse 400 ("missing required parameter " ++ rustDebugStr name)

/-- Embeds `handle_400_wrong_parameter` (`main.rs` lines 154-159). -/
def wrongParamResponse (name value : String) : DashResponse :=
  plaintextResponse 400
    ("required parameter " ++ rustDebugStr name ++ " has invalid value "
      ++ rustDebugStr value)

/-! ### Parsing a plain query string (`form_urlencoded::parse`) -/

/-- Splits a character list at every `&`, keeping empty pieces
(mirrors the crate's `split(b'&')` behaviour). -/
def splitOnAmp : List Char → List (List Char)
  | [] => [[]]
  | c :: cs =>
    if c = '&' then [] :: splitOnAmp cs
    else
      match splitOnAmp cs with
      | [] => [[c]]
      | p :: ps => (c :: p) :: ps

/-- Splits one `name=value` piece at its first `=`; a piece without `=`
yields an empty value (the crate's `splitn(2, b'=')` with
`unwrap_or(&[])`). -/
def parseQueryPiece (piece : List Char) : String × String :=
  (String.mk (piece.takeWhile (fun c => c ≠ '=')),
    String.mk ((piece.dropWhile (fun c => c ≠ '=')).drop 1))

/-- Embeds `form_urlencoded::parse` (`main.rs` lines 174-179) for query
strings containing neither `%` nor `+`: split on `&`, skip empty pieces,
split each piece at its first `=`.  For such inputs the crate's per-piece
decode step (plus-to-space, percent-decode, lossy UTF-8) is the
identity, so this restriction loses nothing for the queries the claims
exercise. -/
def parseQueryPlain (query : String) : List (String × String) :=
  ((splitOnAmp query.data).filter (fun piece => piece ≠ [])).map parseQueryPiece

/-! ### The upstream request (`main.rs` lines 196-227) -/

/-- The outbound request `handle_table` hands to the shared `reqwest`
client: method, resolved URL, HTTP Basic credentials, the value of the
`X-HTTP-Method-Override` header, and the serialized JSON body. -/
structure UpstreamRequest where
  method : String
  url : String
  username : String
  password : String
  methodOverride : String
  body : String
deriving DecidableEq, Repr

/-- Embeds `serde_json`'s escaping of one character inside a JSON string:
`\"`, `\\`, `\b`, `\t`, `\n`, `\f`, `\r`, other control characters as
`\u00XX` with lowercase hex; everything else verbatim. -/
def jsonEscapeChar (c : Char) : String :=
  if c = Char.ofNat 34 then "\\\""
  else if c = '\\' then "\\\\"
  else if c = Char.ofNat 8 then "\\b"
  else if c = '\t' then "\\t"
  else if c = '\n' then "\\n"
  else if c = Char.ofNat 12 then "\\f"
  else if c = '\r' then "\\r"
  else if c.toNat < 0x20 then
    "\\u00" ++ String.singleton (Nat.digitChar (c.toNat / 16))
      ++ String.singleton (Nat.digitChar (c.toNat % 16))
  else String.singleton c

/-- Embeds `serde_json::to_string` of a JSON string value. -/
def jsonEncodeString (s : String) : String :=
  "\"" ++ String.join (s.data.map jsonEscapeChar) ++ "\""

/-- Embeds `serde_json::to_string(&json!({"filter": filter}))`
(`main.rs` lines 197-199 and 226): the compact document
`{"filter":"<escaped filter>"}`. -/
def apiBody (filter : String) : String :=
  "\x7b\"filter\":" ++ jsonEncodeString filter ++ "\x7d"

/-- Embeds `handle_table` from the parsed query pairs up to the outbound
request (`main.rs` lines 181-227):
1. required `objtype` (last occurrence wins), missing → 400;
2. `objtype` must be `hosts` or `services`, else → 400 naming the value;
3. required `filter`, missing → 400;
4. resolve `objects/<objtype>` against the configured base URL via the
   `url` crate's `Url::join` — an external collaborator passed in as
   `join`; failure → `return_500` with no request built;
5. otherwise the `POST` request with Basic auth, `X-HTTP-Method-Override:
   GET` and the JSON filter body.
`Sum.inl` is an early response (the upstream client is never invoked);
`Sum.inr` is the request handed to the client. -/
def handleTableRequest (queryPairs : List (String × String))
    (baseUrl username password : String)
    (join : String → String → Option String) :
    Sum DashResponse UpstreamRequest :=
  match getRequiredParameter queryPairs "objtype" with
  | none => .inl (missingParamResponse "objtype")
  | some objtype =>
    if objtype ≠ "hosts" ∧ objtype ≠ "services" then
      .inl (wrongParamResponse "objtype" objtype)
    else
      match getRequiredParameter queryPairs "filter" with
      | none => .inl (missingParamResponse "filter")
      | some filter =>
        match join baseUrl ("objects/" ++ objtype) with
        | none => .inl return500
        | some url =>
          .inr ⟨"POST", url, username, password, "GET", apiBody filter⟩

/-! ### The upstream-response branch (`main.rs` lines 244-333) -/

/-- Is `b` a UTF-8 continuation byte (`0x80..=0xBF`)? -/
def isUtf8Cont (b : Nat) : Prop := 0x80 ≤ b ∧ b ≤ 0xBF

instance (b : Nat) : Decidable (isUtf8Cont b) :=
  inferInstanceAs (Decidable (_ ∧ _))

/-- Validity of the second byte of a three-byte UTF-8 sequence headed by
`b1` (excludes overlong encodings after `0xE0` and surrogates after
`0xED`). -/
def utf8Valid3 (b1 b2 b3 : Nat) : Prop :=
  (if b1 = 0xE0 then 0xA0 ≤ b2 ∧ b2 ≤ 0xBF
   else if b1 = 0xED then 0x80 ≤ b2 ∧ b2 ≤ 0x9F
   else isUtf8Cont b2) ∧ isUtf8Cont b3

instance (b1 b2 b3 : Nat) : Decidable (utf8Valid3 b1 b2 b3) :=
  inferInstanceAs (Decidable (_ ∧ _))

/-- Validity of the trailing bytes of a four-byte UTF-8 sequence headed by
`b1` (excludes overlong encodings after `0xF0` and codepoints beyond
`0x10FFFF` after `0xF4`). -/
def utf8Valid4 (b1 b2 b3 b4 : Nat) : Prop :=
  (if b1 = 0xF0 then 0x90 ≤ b2 ∧ b2 ≤ 0xBF
   else if b1 = 0xF4 then 0x80 ≤ b2 ∧ b2 ≤ 0x8F
   else isUtf8Cont b2) ∧ isUtf8Cont b3 ∧ isUtf8Cont b4

instance (b1 b2 b3 b4 : Nat) : Decidable (utf8Valid4 b1 b2 b3 b4) :=
  inferInstanceAs (Decidable (_ ∧ _))

/-- Embeds strict UTF-8 decoding of a byte sequence, as performed by
`String::from_utf8` (`main.rs` line 303): `some` of the decoded character
list on valid UTF-8, `none` on any invalid sequence. -/
def utf8DecodeBytes : List Nat → Option (List Char)
  | [] => some []
  | b1 :: rest =>
    if b1 ≤ 0x7F then
      (utf8DecodeBytes rest).map (fun cs => Char.ofNat b1 :: cs)
    else if 0xC2 ≤ b1 ∧ b1 ≤ 0xDF then
      match rest with
      | b2 :: rest2 =>
        if isUtf8Cont b2 then
          (utf8DecodeBytes rest2).map
            (fun cs => Char.ofNat ((b1 - 0xC0) * 0x40 + (b2 - 0x80)) :: cs)
        else none
      | [] => none
    else if 0xE0 ≤ b1 ∧ b1 ≤ 0xEF then
      match rest with
      | b2 :: b3 :: rest3 =>
        if utf8Valid3 b1 b2 b3 then
          (utf8DecodeBytes rest3).map
            (fun cs => Char.ofNat
              ((b1 - 0xE0) * 0x1000 + (b2 - 0x80) * 0x40 + (b3 - 0x80)) :: cs)
        else none
      | _ => none
    else if 0xF0 ≤ b1 ∧ b1 ≤ 0xF4 then
      match rest with
      | b2 :: b3 :: b4 :: rest4 =>
        if utf8Valid4 b1 b2 b3 b4 then
          (utf8DecodeBytes rest4).map
            (fun cs => Char.ofNat
              ((b1 - 0xF0) * 0x40000 + (b2 - 0x80) * 0x1000
                + (b3 - 0x80) * 0x40 + (b4 - 0x80)) :: cs)
        else none
      | _ => none
    else none

/-- Embeds `char::from_u32` (`main.rs` line 308): `some` unless the value
is a surrogate (`0xD800..=0xDFFF`) or exceeds `0x10FFFF`. -/
def charFromU32 (n : Nat) : Option Char :=
  if n < 0xD800 ∨ (0xDFFF < n ∧ n ≤ 0x10FFFF) then some (Char.ofNat n) else none

/-- Embeds the error-body decoding of `handle_table`
(`main.rs` lines 303-312): try strict UTF-8 (`String::from_utf8`); on
failure, push `char::from_u32(b as u32).unwrap()` for every byte.  The
overall `none` models the `unwrap` panicking, which theorem `C9`-side
lemmas show cannot happen for byte inputs. -/
def decodeUpstreamErrorBody (bytes : List Nat) : Option String :=
  match utf8DecodeBytes bytes with
  | some cs => some (String.mk cs)
  | none => (bytes.mapM charFromU32).map String.mk

/-- Modelled from the spec: the askama template
`templates/icinga_error.html` is not under `src/` (only
`IcingaErrorTemplate { status_code, error_json }` and its render call
are), so the error view is modelled after §4.2 step 10: a document
embedding the original upstream status code and the decoded payload as
text. -/
def renderIcingaError (statusCode : Nat) (errorJson : String) : String :=
  "<h1>Icinga API returned status code " ++ toString statusCode
    ++ "</h1><pre>" ++ errorJson ++ "</pre>"

/-- Embeds the non-200 branch of `handle_table` (`main.rs` lines
302-333): decode the body, render the error view, serve it with outer
status 200. -/
def handleUpstreamError (statusCode : Nat) (bodyBytes : List Nat) :
    Option DashResponse :=
  (decodeUpstreamErrorBody bodyBytes).map
    (fun s => ⟨200, "text/html; charset=utf-8", renderIcingaError statusCode s⟩)

/-- Embeds the status branch of `handle_table` (`main.rs` lines
244-333).  `parsedJson` is the result of the external JSON parser
`serde_json::from_slice(&response_bytes)` (`none` = parse failure →
`return_500`). -/
def handleUpstreamResponse (objtype : String) (statusCode : Nat)
    (bodyBytes : List Nat) (parsedJson : Option Json) : Option DashResponse :=
  if statusCode = 200 then
    match parsedJson with
    | none => some return500
    | some j => some (handleSuccessJson objtype j)
  else handleUpstreamError statusCode bodyBytes

/-! ### Supporting lemmas for the claim theorems -/

/-- `rowLE` is exactly "precedes in the spec's order, or is equal":
equality in the comparator forces equality of all four fields. -/
theorem rowLE_iff (a b : RowPart) : rowLE a b ↔ specPrecedes a b ∨ a = b := by
  unfold rowLE
  constructor
  · intro h
    rcases hc : rowCmp a b with _ | _ | _
    · exact .inl (rowCmp_lt_iff.1 hc)
    · exact .inr (rowCmp_eq_iff.1 hc)
    · exact absurd hc h
  · rintro (h | rfl)
    · rw [rowCmp_lt_iff.2 h]; simp
    · rw [rowCmp_eq_iff.2 rfl]; simp

theorem sortRows_perm (rows : List RowPart) : List.Perm (sortRows rows) rows :=
  List.perm_insertionSort rowLE rows

theorem sortRows_sorted (rows : List RowPart) : List.Sorted rowLE (sortRows rows) :=
  List.sorted_insertionSort rowLE rows

/-- Any list that is a permutation of `rows` and sorted for `rowLE` *is*
`sortRows rows`: the sorted order is unique because `rowLE` is
antisymmetric (ties in the comparator force equal rows), which is what
makes `sort_unstable`'s output deterministic. -/
theorem sortRows_unique (rows : List RowPart) (l : List RowPart)
    (hp : List.Perm l rows) (hs : List.Sorted rowLE l) : l = sortRows rows :=
  List.eq_of_perm_of_sorted (hp.trans (sortRows_perm rows).symm) hs
    (sortRows_sorted rows)

/-! ### C1 -/

/-- C1: for every list of `MonitoredRow`s (`RowPart`s) built from a
successful upstream response, the rendered table's row list — the
`sortRows` output that `handleSuccessJson` passes to the renderer — is
exactly the sort of that list by the total order "A precedes B iff
`A.state > B.state`, or equal state and `A.host < B.host`, or equal state
and host and `A.service < B.service`, or equal state, host, service and
`A.output < B.output`"; the resulting order is deterministic for equal
keys (any sorted permutation is that one sort). -/
theorem C1_sorted_render_order :
    (∀ a b : RowPart, rowCmp a b = .lt ↔ specPrecedes a b)
    ∧ (∀ a b : RowPart, rowLE a b ↔ specPrecedes a b ∨ a = b)
    ∧ ∀ rows : List RowPart,
        List.Perm (sortRows rows) rows
        ∧ List.Pairwise (fun a b => specPrecedes a b ∨ a = b) (sortRows rows)
        ∧ ∀ l : List RowPart, List.Perm l rows →
            List.Pairwise (fun a b => specPrecedes a b ∨ a = b) l →
            l = sortRows rows := by
  refine ⟨fun a b => rowCmp_lt_iff, rowLE_iff, fun rows => ⟨sortRows_perm rows, ?_, ?_⟩⟩
  · exact (sortRows_sorted rows).imp (fun h => (rowLE_iff _ _).1 h)
  · intro l hp hs
    exact sortRows_unique rows l hp (hs.imp (fun h => (rowLE_iff _ _).2 h))

/-- Witness for C1 at the spec's own example: rows
`{state 2, host b}`, `{state 5, host a}`, `{state 2, host a}` sort to
`[{5,a}, {2,a}, {2,b}]`, obtained through the uniqueness part of the
theorem, and `{5,a}` precedes `{2,a}` in the spec order. -/
theorem C1_sorted_render_order_witness :
    specPrecedes ⟨"a", "", "", 5⟩ ⟨"a", "", "", 2⟩
    ∧ [⟨"a", "", "", 5⟩, ⟨"a", "", "", 2⟩, ⟨"b", "", "", 2⟩]
        = sortRows [⟨"b", "", "", 2⟩, ⟨"a", "", "", 5⟩, ⟨"a", "", "", 2⟩] :=
  ⟨(C1_sorted_render_order.1 ⟨"a", "", "", 5⟩ ⟨"a", "", "", 2⟩).1 (by decide),
    (C1_sorted_render_order.2.2 [⟨"b", "", "", 2⟩, ⟨"a", "", "", 5⟩,
      ⟨"a", "", "", 2⟩]).2.2
      [⟨"a", "", "", 5⟩, ⟨"a", "", "", 2⟩, ⟨"b", "", "", 2⟩]
      (by decide) (by decide)⟩

/-! ### C2 -/

/-- C2: whenever `objtype` is missing, has a value outside
`{hosts, services}`, or `filter` is missing, the table handler answers
400 with the claimed plain-text body (`<value>` being the Rust `Debug`
formatting of the value, i.e. `rustDebugStr`), as a `Sum.inl` early
response — the upstream client is never invoked (the result is the same
for every `join` collaborator, which is not even consulted). -/
theorem C2_validation_errors :
    ∀ (queryPairs : List (String × String)) (baseUrl username password : String)
      (join : String → String → Option String),
      (getRequiredParameter queryPairs "objtype" = none →
        handleTableRequest queryPairs baseUrl username password join
          = .inl (plaintextResponse 400 "missing required parameter \"objtype\""))
      ∧ (∀ v, getRequiredParameter queryPairs "objtype" = some v →
          v ≠ "hosts" → v ≠ "services" →
          handleTableRequest queryPairs baseUrl username password join
            = .inl (plaintextResponse 400
                ("required parameter \"objtype\" has invalid value "
                  ++ rustDebugStr v)))
      ∧ ((getRequiredParameter queryPairs "objtype" = some "hosts"
            ∨ getRequiredParameter queryPairs "objtype" = some "services") →
          getRequiredParameter queryPairs "filter" = none →
          handleTableRequest queryPairs baseUrl username password join
            = .inl (plaintextResponse 400 "missing required parameter \"filter\"")) := by
  intro queryPairs baseUrl username password join
  refine ⟨?_, ?_, ?_⟩
  · intro h
    simp only [handleTableRequest, h]
    exact congrArg Sum.inl (by decide)
  · intro v h hv1 hv2
    simp only [handleTableRequest, h]
    rw [if_pos ⟨hv1, hv2⟩]
    have strEq : "required parameter " ++ rustDebugStr "objtype"
        ++ " has invalid value " ++ rustDebugStr v
        = "required parameter \"objtype\" has invalid value "
          ++ rustDebugStr v := by
      rw [show rustDebugStr "objtype" = "\"objtype\"" from by decide]
      exact congrArg (fun s => s ++ rustDebugStr v) (by decide)
    exact congrArg
      (fun b => (Sum.inl (plaintextResponse 400 b) :
        Sum DashResponse UpstreamRequest)) strEq
  · rintro (h | h) hf
    · simp only [handleTableRequest, h, hf]
      rw [if_neg (by simp)]
      exact congrArg Sum.inl (by decide)
    · simp only [handleTableRequest, h, hf]
      rw [if_neg (by simp)]
      exact congrArg Sum.inl (by decide)

/-- Witness for C2: each of the three validation failures at a concrete
query-pair list, with a `join` collaborator that would fail if consulted. -/
theorem C2_validation_errors_witness :
    handleTableRequest [("filter", "x")] "b" "u" "p" (fun _ _ => none)
      = .inl (plaintextResponse 400 "missing required parameter \"objtype\"")
    ∧ handleTableRequest [("objtype", "bogus"), ("filter", "x")] "b" "u" "p"
        (fun _ _ => none)
      = .inl (plaintextResponse 400
          ("required parameter \"objtype\" has invalid value "
            ++ rustDebugStr "bogus"))
    ∧ handleTableRequest [("objtype", "hosts")] "b" "u" "p" (fun _ _ => none)
      = .inl (plaintextResponse 400 "missing required parameter \"filter\"") :=
  ⟨(C2_validation_errors [("filter", "x")] "b" "u" "p" (fun _ _ => none)).1
      (by decide),
    (C2_validation_errors [("objtype", "bogus"), ("filter", "x")] "b" "u" "p"
      (fun _ _ => none)).2.1 "bogus" (by decide) (by decide) (by decide),
    (C2_validation_errors [("objtype", "hosts")] "b" "u" "p"
      (fun _ _ => none)).2.2 (Or.inl (by decide)) (by decide)⟩

/-! ### C3 -/

/-- C3: for a required parameter occurring more than once, the value used
is the **last** occurrence in the query string (`Iterator::last` over the
filtered pairs); in particular `?objtype=hosts&objtype=services&filter=x`
selects `services`, so the handler resolves `objects/services` and sends
`{"filter":"x"}`. -/
theorem C3_last_occurrence_wins :
    (∀ (l₁ l₂ : List (String × String)) (key v : String),
      (∀ p ∈ l₂, p.1 ≠ key) →
      getRequiredParameter (l₁ ++ (key, v) :: l₂) key = some v)
    ∧ getRequiredParameter
        (parseQueryPlain "objtype=hosts&objtype=services&filter=x") "objtype"
        = some "services"
    ∧ ∀ (baseUrl username password : String)
        (join : String → String → Option String),
        handleTableRequest
          (parseQueryPlain "objtype=hosts&objtype=services&filter=x")
          baseUrl username password join
          = match join baseUrl "objects/services" with
            | none => .inl return500
            | some url =>
                .inr ⟨"POST", url, username, password, "GET", apiBody "x"⟩ := by
  refine ⟨?_, by decide, ?_⟩
  · intro l₁ l₂ key v h
    have h2 : List.filter (fun p => p.1 = key) l₂ = [] := by
      rw [List.filter_eq_nil_iff]
      intro p hp
      simpa using h p hp
    unfold getRequiredParameter
    rw [List.filter_append, List.filter_cons]
    simp only [decide_eq_true_eq, if_pos rfl, h2]
    rw [List.map_append]
    exact List.getLast?_concat _
  · intro baseUrl username password join
    rfl

/-- Witness for C3 at the claim's concrete query: the middle pair of an
explicit three-pair list wins over the first. -/
theorem C3_last_occurrence_wins_witness :
    getRequiredParameter
      [("objtype", "hosts"), ("objtype", "services"), ("filter", "x")] "objtype"
      = some "services" :=
  C3_last_occurrence_wins.1 [("objtype", "hosts")] [("filter", "x")]
    "objtype" "services" (by decide)

/-! ### C4 -/

/-- C4 counterexample: the claim says every produced row has state in
`0..=6`, but an upstream `attrs.state` of `7` fits `u8`, so
`try_into().unwrap_or(6)` passes it through unchanged and the produced
row has state `7`. -/
theorem C4_state_range_counterexample :
    ¬ ((extractRow "hosts"
        (Json.obj [("attrs", Json.obj
          [("name", Json.str "h"), ("state", Json.numU 7)])])).state ≤ 6) := by
  decide

/-- C4 (amended): `state` is 5 when `attrs.state` is absent or not a
non-negative integer, 6 when the value does not fit `u8` (exceeds 255),
and otherwise the reported value; consequently every produced row has
state in `0..=255` (not `0..=6`: values `7..=255` pass through
unchanged, as the counterexample shows). -/
theorem C4_state_extraction :
    ∀ (objtype : String) (result : Json),
      ((((result.index "attrs").index "state").asU64 = none →
        (extractRow objtype result).state = 5))
      ∧ (∀ n, (((result.index "attrs").index "state").asU64 = some n →
          255 < n → (extractRow objtype result).state = 6))
      ∧ (∀ n, (((result.index "attrs").index "state").asU64 = some n →
          n ≤ 255 → (extractRow objtype result).state = n))
      ∧ (extractRow objtype result).state ≤ 255 := by
  intro objtype result
  have hs : (extractRow objtype result).state
      = stateToU8 ((((result.index "attrs").index "state").asU64).getD 5) := by
    simp [extractRow]
  refine ⟨?_, ?_, ?_, ?_⟩
  · intro h
    rw [hs, h]
    rfl
  · intro n h hn
    rw [hs, h]
    simp only [Option.getD_some, stateToU8]
    rw [if_neg (by omega)]
  · intro n h hn
    rw [hs, h]
    simp only [Option.getD_some, stateToU8]
    rw [if_pos hn]
  · rw [hs]
    simp only [stateToU8]
    split <;> omega

/-- Witness for C4 (amended) at concrete documents: absent state gives 5,
state 300 gives 6, state 3 passes through. -/
theorem C4_state_extraction_witness :
    (extractRow "hosts" (Json.obj
      [("attrs", Json.obj [("name", Json.str "h")])])).state = 5
    ∧ (extractRow "hosts" (Json.obj
        [("attrs", Json.obj [("state", Json.numU 300)])])).state = 6
    ∧ (extractRow "hosts" (Json.obj
        [("attrs", Json.obj [("state", Json.numU 3)])])).state = 3 :=
  ⟨(C4_state_extraction "hosts"
      (Json.obj [("attrs", Json.obj [("name", Json.str "h")])])).1 (by decide),
    (C4_state_extraction "hosts"
      (Json.obj [("attrs", Json.obj [("state", Json.numU 300)])])).2.1
      300 (by decide) (by decide),
    (C4_state_extraction "hosts"
      (Json.obj [("attrs", Json.obj [("state", Json.numU 3)])])).2.2.1
      3 (by decide) (by decide)⟩

/-! ### C5 -/

/-- C5: for each `results` element, with `objtype = hosts` the row's
`host` is `attrs.name` and `service` is empty; with `objtype = services`,
`host` is `attrs.host_name` and `service` is `attrs.name`; in both cases
`output` is `attrs.last_check_result.output`, defaulting to `""` when
absent; and the spec's concrete example document yields exactly one row
`{host h1, service "", output OK, state 0}`. -/
theorem C5_field_mapping :
    (∀ (result : Json) (h : String),
      (((result.index "attrs").index "name").asStr = some h →
        (extractRow "hosts" result).host = h))
    ∧ (∀ result : Json, (extractRow "hosts" result).service = "")
    ∧ (∀ (result : Json) (hn : String),
        (((result.index "attrs").index "host_name").asStr = some hn →
          (extractRow "services" result).host = hn))
    ∧ (∀ (result : Json) (sn : String),
        (((result.index "attrs").index "name").asStr = some sn →
          (extractRow "services" result).service = sn))
    ∧ (∀ (objtype : String) (result : Json) (o : String),
        ((((result.index "attrs").index "last_check_result").index
            "output").asStr = some o →
          (extractRow objtype result).output = o))
    ∧ (∀ (objtype : String) (result : Json),
        ((((result.index "attrs").index "last_check_result").index
            "output").asStr = none →
          (extractRow objtype result).output = ""))
    ∧ List.map (extractRow "hosts")
        [Json.obj [("attrs", Json.obj [("name", Json.str "h1"),
          ("state", Json.numU 0),
          ("last_check_result", Json.obj [("output", Json.str "OK")])])]]
        = [⟨"h1", "", "OK", 0⟩] := by
  refine ⟨?_, ?_, ?_, ?_, ?_, ?_, by decide⟩
  · intro result h hsome
    rw [show (extractRow "hosts" result).host
      = ((((result.index "attrs").index "name").asStr).getD "") from rfl, hsome]
    rfl
  · intro result
    rfl
  · intro result hn hsome
    rw [show (extractRow "services" result).host
      = ((((result.index "attrs").index "host_name").asStr).getD "") from rfl,
      hsome]
    rfl
  · intro result sn hsome
    rw [show (extractRow "services" result).service
      = ((((result.index "attrs").index "name").asStr).getD "") from rfl, hsome]
    rfl
  · intro objtype result o hsome
    have : (extractRow objtype result).output
        = (((((result.index "attrs").index "last_check_result").index
            "output").asStr).getD "") := by
      simp [extractRow]
    rw [this, hsome]
    rfl
  · intro objtype result hnone
    have : (extractRow objtype result).output
        = (((((result.index "attrs").index "last_check_result").index
            "output").asStr).getD "") := by
      simp [extractRow]
    rw [this, hnone]
    rfl

/-- Witness for C5 at the spec's example document. -/
theorem C5_field_mapping_witness :
    (extractRow "hosts" (Json.obj [("attrs", Json.obj
      [("name", Json.str "h1"), ("state", Json.numU 0),
        ("last_check_result", Json.obj [("output", Json.str "OK")])])])).host
      = "h1"
    ∧ (extractRow "services" (Json.obj [("attrs", Json.obj
        [("name", Json.str "disk"), ("host_name", Json.str "h1")])])).host
      = "h1" :=
  ⟨C5_field_mapping.1 (Json.obj [("attrs", Json.obj
      [("name", Json.str "h1"), ("state", Json.numU 0),
        ("last_check_result", Json.obj [("output", Json.str "OK")])])])
      "h1" (by decide),
    C5_field_mapping.2.2.1 (Json.obj [("attrs", Json.obj
      [("name", Json.str "disk"), ("host_name", Json.str "h1")])])
      "h1" (by decide)⟩

/-! ### C6 -/

/-- C6: on a 200 upstream response whose parsed JSON has a `results`
field that is absent or not an array (e.g. a JSON object — a missing
field indexes to `Null`, also not an array), the dashboard answers
`return_500` (status 500), regardless of the document's other contents. -/
theorem C6_results_not_array :
    ∀ (objtype : String) (responseJson : Json) (bodyBytes : List Nat),
      (∀ elems : List Json, responseJson.index "results" ≠ Json.arr elems) →
      handleUpstreamResponse objtype 200 bodyBytes (some responseJson)
        = some return500
      ∧ return500.status = 500 := by
  intro objtype responseJson bodyBytes h
  refine ⟨?_, rfl⟩
  have ha : (responseJson.index "results").asArray = none := by
    rcases he : responseJson.index "results" with _ | _ | _ | _ | _ | _ | elems | _
    · rfl
    · rfl
    · rfl
    · rfl
    · rfl
    · rfl
    · exact absurd he (h elems)
    · rfl
  simp [handleUpstreamResponse, handleSuccessJson, ha]

/-- Witness for C6: a 200 response whose `results` is a JSON object,
next to an unrelated extra field. -/
theorem C6_results_not_array_witness :
    handleUpstreamResponse "hosts" 200 [] (some (Json.obj
      [("results", Json.obj [("a", Json.null)]), ("other", Json.str "x")]))
      = some return500
    ∧ return500.status = 500 :=
  C6_results_not_array "hosts"
    (Json.obj [("results", Json.obj [("a", Json.null)]),
      ("other", Json.str "x")]) []
    (fun _ h => Json.noConfusion h)

/-! ### C7 -/

/-- C7: for every non-200 upstream status and body, the dashboard's outer
response has status 200 and its rendered body embeds (as a contiguous
substring) both the decimal rendering of the original upstream status
code and the decoded body text; the upstream status is never mapped to
the dashboard's transport status. -/
theorem C7_upstream_error_outer_200 :
    ∀ (objtype : String) (statusCode : Nat) (bodyBytes : List Nat)
      (parsedJson : Option Json) (s : String),
      statusCode ≠ 200 →
      decodeUpstreamErrorBody bodyBytes = some s →
      handleUpstreamResponse objtype statusCode bodyBytes parsedJson
        = some ⟨200, "text/html; charset=utf-8",
            renderIcingaError statusCode s⟩
      ∧ (toString statusCode).data <:+: (renderIcingaError statusCode s).data
      ∧ s.data <:+: (renderIcingaError statusCode s).data := by
  intro objtype statusCode bodyBytes parsedJson s hne hdec
  refine ⟨?_, ?_, ?_⟩
  · simp [handleUpstreamResponse, hne, handleUpstreamError, hdec]
  · refine ⟨"<h1>Icinga API returned status code ".data,
      ("</h1><pre>" ++ s ++ "</pre>").data, ?_⟩
    simp [renderIcingaError, String.data_append, List.append_assoc]
  · refine ⟨("<h1>Icinga API returned status code "
        ++ toString statusCode ++ "</h1><pre>").data, "</pre>".data, ?_⟩
    simp [renderIcingaError, String.data_append, List.append_assoc]

/-- Witness for C7: a 404 with body `{"error":"not found"}` yields an
outer 200 whose rendered body embeds `404` and the literal error text. -/
theorem C7_upstream_error_outer_200_witness :
    handleUpstreamResponse "hosts" 404
      ("\x7b\"error\":\"not found\"\x7d".data.map Char.toNat) none
      = some ⟨200, "text/html; charset=utf-8",
          renderIcingaError 404 "\x7b\"error\":\"not found\"\x7d"⟩
    ∧ (toString 404).data
        <:+: (renderIcingaError 404 "\x7b\"error\":\"not found\"\x7d").data
    ∧ "\x7b\"error\":\"not found\"\x7d".data
        <:+: (renderIcingaError 404 "\x7b\"error\":\"not found\"\x7d").data :=
  C7_upstream_error_outer_200 "hosts" 404
    ("\x7b\"error\":\"not found\"\x7d".data.map Char.toNat) none
    "\x7b\"error\":\"not found\"\x7d" (by decide) (by decide)

/-! ### C8 -/

/-- C8: after validation succeeds, the upstream request is an HTTP `POST`
whose URL is the resolution of the relative path `objects/<objtype>`
against the configured base URL (the `url` crate's `Url::join`, an
external collaborator passed in as `join`), with Basic auth and the
method-override header; when that resolution fails the handler answers
`return_500` (status 500) and no request is built. -/
theorem C8_upstream_request_composition :
    ∀ (queryPairs : List (String × String)) (baseUrl username password : String)
      (join : String → String → Option String) (objtype filter : String),
      getRequiredParameter queryPairs "objtype" = some objtype →
      (objtype = "hosts" ∨ objtype = "services") →
      getRequiredParameter queryPairs "filter" = some filter →
      (join baseUrl ("objects/" ++ objtype) = none →
        handleTableRequest queryPairs baseUrl username password join
          = .inl return500)
      ∧ (∀ url, join baseUrl ("objects/" ++ objtype) = some url →
          handleTableRequest queryPairs baseUrl username password join
            = .inr ⟨"POST", url, username, password, "GET", apiBody filter⟩) := by
  intro queryPairs baseUrl username password join objtype filter ho hv hf
  have hcond : ¬(objtype ≠ "hosts" ∧ objtype ≠ "services") := by
    rcases hv with rfl | rfl <;> simp
  constructor
  · intro hj
    simp only [handleTableRequest, ho, hf, hj]
    rw [if_neg hcond]
  · intro url hju
    simp only [handleTableRequest, ho, hf, hju]
    rw [if_neg hcond]

/-- Witness for C8: a well-formed base URL resolves to
`{base_url}objects/hosts` and the full `POST` request is built; a base
URL on which resolution fails yields the 500 early response. -/
theorem C8_upstream_request_composition_witness :
    handleTableRequest [("objtype", "hosts"), ("filter", "x")]
      "https://icinga.example/v1/" "admin" "pw" (fun b r => some (b ++ r))
      = .inr ⟨"POST", "https://icinga.example/v1/objects/hosts", "admin", "pw",
          "GET", apiBody "x"⟩
    ∧ handleTableRequest [("objtype", "hosts"), ("filter", "x")]
        "mailto:nobody" "admin" "pw" (fun _ _ => none)
      = .inl return500 :=
  ⟨(C8_upstream_request_composition [("objtype", "hosts"), ("filter", "x")]
      "https://icinga.example/v1/" "admin" "pw" (fun b r => some (b ++ r))
      "hosts" "x" (by decide) (Or.inl rfl) (by decide)).2
      "https://icinga.example/v1/objects/hosts" rfl,
    (C8_upstream_request_composition [("objtype", "hosts"), ("filter", "x")]
      "mailto:nobody" "admin" "pw" (fun _ _ => none)
      "hosts" "x" (by decide) (Or.inl rfl) (by decide)).1 rfl⟩

/-! ### C9 -/

theorem mapM_charFromU32_bytes (bytes : List Nat) (h : ∀ b ∈ bytes, b ≤ 255) :
    bytes.mapM charFromU32 = some (bytes.map Char.ofNat) := by
  induction bytes with
  | nil => rfl
  | cons b bs ih =>
    have hb : b ≤ 255 := h b (List.mem_cons_self b bs)
    have hc : charFromU32 b = some (Char.ofNat b) := by
      unfold charFromU32
      rw [if_pos (Or.inl (by omega))]
    simp only [List.mapM_cons, hc,
      ih (fun x hx => h x (List.mem_cons_of_mem b hx)), List.map_cons]
    rfl

/-- C9: decoding a non-200 upstream body never fails: strict UTF-8 is
tried first, and on failure every byte is replaced by the character with
the same codepoint; `char::from_u32` succeeds on every byte value
`0..=255` (all below the surrogate range), so the fallback — and hence
the whole decode — always produces a string. -/
theorem C9_lossy_decode_total :
    ∀ bytes : List Nat, (∀ b ∈ bytes, b ≤ 255) →
      (∀ b ∈ bytes, (charFromU32 b).isSome)
      ∧ (utf8DecodeBytes bytes = none →
          decodeUpstreamErrorBody bytes
            = some (String.mk (bytes.map Char.ofNat)))
      ∧ (decodeUpstreamErrorBody bytes).isSome := by
  intro bytes h
  have hm := mapM_charFromU32_bytes bytes h
  refine ⟨?_, ?_, ?_⟩
  · intro b hb
    have hc : charFromU32 b = some (Char.ofNat b) := by
      unfold charFromU32
      rw [if_pos (Or.inl (by have := h b hb; omega))]
    rw [hc]
    rfl
  · intro hu
    simp only [decodeUpstreamErrorBody, hu, hm]
    rfl
  · rcases hu : utf8DecodeBytes bytes with _ | cs
    · simp only [decodeUpstreamErrorBody, hu, hm]
      rfl
    · simp only [decodeUpstreamErrorBody, hu]
      rfl

/-- Witness for C9: the byte `0xFF` is invalid UTF-8, so the fallback
fires and maps each byte to its codepoint. -/
theorem C9_lossy_decode_total_witness :
    (utf8DecodeBytes [0xFF, 0x41] = none →
      decodeUpstreamErrorBody [0xFF, 0x41]
        = some (String.mk ([0xFF, 0x41].map Char.ofNat)))
    ∧ (decodeUpstreamErrorBody [0xFF, 0x41]).isSome :=
  ⟨(C9_lossy_decode_total [0xFF, 0x41] (by decide)).2.1,
    (C9_lossy_decode_total [0xFF, 0x41] (by decide)).2.2⟩

/-! ### C10 -/

/-- C10: a `filter` parameter that is present with an empty value passes
validation — the handler checks only presence, not non-emptiness — so
`objtype=hosts&filter=` does not produce a 400 but proceeds to the
upstream call with JSON body `{"filter":""}` (braces spelled with
escapes). -/
theorem C10_empty_filter_accepted :
    ∀ (baseUrl username password : String)
      (join : String → String → Option String),
      getRequiredParameter (parseQueryPlain "objtype=hosts&filter=") "filter"
        = some ""
      ∧ handleTableRequest (parseQueryPlain "objtype=hosts&filter=")
          baseUrl username password join
        = match join baseUrl "objects/hosts" with
          | none => .inl return500
          | some url =>
              .inr ⟨"POST", url, username, password, "GET",
                "\x7b\"filter\":\"\"\x7d"⟩ := by
  intro baseUrl username password join
  exact ⟨by decide, rfl⟩

end Icingcake
